import Mathlib

/-!
Verification of the tabular search/filter/summarize engine of the
fashion-textile accounting dashboard (src/app.py).

The embedding models:
  * cell values as loaded from CSV by pandas (text, numbers, booleans,
    missing values);
  * the per-cell semantics of pandas `Series.astype(str)` followed by
    `Series.str.contains(term, case=False, na=False)` — note that
    `str.contains` treats the term as a regular expression by default,
    and `astype(str)` turns a missing value (NaN) into the text "nan";
  * `search_dataframe` (src/app.py lines 191-205);
  * `load_csv_data` (lines 181-189) over an abstract file system;
  * the per-page summary metrics (Accounts page lines 334-342,
    Invoices page lines 444-459);
  * `start_session` / `upload_files_to_openai` session state handling
    (lines 11-68 and 162-179), with the remote OpenAI calls abstracted
    into an outcome parameter.

Regular expressions are modelled on the fragment actually needed by the
claims: literal characters and the '.' wildcard.  A pattern that uses
any other metacharacter is outside the modelled fragment and is mapped
to a parse failure; the one such pattern used in a theorem, "(", is a
genuine `re.error` in Python (unterminated subpattern), so on every
input appearing in a theorem below the model agrees with the code.
-/

/-- Cell value of a loaded CSV table: text, a numeric value, a boolean,
or a missing value (pandas NaN). -/
inductive Value where
  | text (s : String)
  | num (q : ℚ)
  | boolean (b : Bool)
  | na
deriving DecidableEq, Repr

/-- Smallest exponent k (searched up to 40) such that q * 10 ^ k is an
integer; used to render a rational as a decimal numeral. -/
def decExp (q : ℚ) : ℕ :=
  ((List.range 40).find? fun k => (q * ((10 : ℚ) ^ k)).den = 1).getD 0

/-- Decimal rendering of a rational number, matching how pandas prints a
float value (always with a decimal point, so an integral value renders
as "5.0").  Only decimals that terminate within 40 digits are rendered
exactly; CSV numbers always do. -/
def decimalStr (q : ℚ) : String :=
  let k := decExp q
  let n : ℤ := (q * ((10 : ℚ) ^ k)).num
  let sgn := if n < 0 then "-" else ""
  let a := n.natAbs
  if k = 0 then ((sgn ++ toString a) ++ ".0")
  else
    let ip := a / 10 ^ k
    let fp := a % 10 ^ k
    let fs := toString fp
    ((((sgn ++ toString ip) ++ ".") ++ String.mk (List.replicate (k - fs.length) '0')) ++ fs)

/-- Textual representation of a cell after `Series.astype(str)`:
text is unchanged, numbers print as decimals, booleans print as
"True"/"False", and a missing value (NaN) prints as "nan". -/
def pythonStr : Value → String
  | .text s => s
  | .num q => decimalStr q
  | .boolean b => if b then "True" else "False"
  | .na => "nan"

/-- Token of the modelled regular-expression fragment: a literal
character or the '.' wildcard. -/
inductive RegexTok where
  | lit (c : Char)
  | dot
deriving DecidableEq, Repr

/-- Characters with a special meaning in Python regular expressions,
other than the modelled '.' wildcard. -/
def isRegexMeta (c : Char) : Bool :=
  c == '\\' || c == '(' || c == ')' || c == '[' || c == ']' ||
  c == '\x7b' || c == '\x7d' || c == '*' || c == '+' || c == '?' ||
  c == '|' || c == '^' || c == '$'

/-- Pattern compilation for the modelled fragment.  `none` stands for a
pattern outside the fragment; for the concrete pattern "(" used below
this coincides with Python, where `re.compile("(")` raises `re.error`. -/
def parsePattern : List Char → Option (List RegexTok)
  | [] => some []
  | c :: rest =>
    if c == '.' then (parsePattern rest).map fun ts => RegexTok.dot :: ts
    else if isRegexMeta c then none
    else (parsePattern rest).map fun ts => RegexTok.lit c :: ts

/-- Case-insensitive single-token match (re.IGNORECASE); '.' matches any
character except a newline. -/
def matchTok : RegexTok → Char → Bool
  | .lit a, b => a.toLower == b.toLower
  | .dot, b => b != '\n'

/-- The token list matches a prefix of the character list. -/
def matchHere : List RegexTok → List Char → Bool
  | [], _ => true
  | _ :: _, [] => false
  | t :: ts, c :: cs => matchTok t c && matchHere ts cs

/-- Python `re.search`: the token list matches at some position of the
character list. -/
def reSearch (ts : List RegexTok) : List Char → Bool
  | [] => matchHere ts []
  | c :: cs => matchHere ts (c :: cs) || reSearch ts cs

/-- Per-column semantics of `Series.str.contains(q, case=False,
na=False)` applied to an already-stringified column: compile the query
as a regular expression (error on an invalid pattern), then search every
cell text. -/
def seriesStrContains (q : String) (vals : List String) : Except Unit (List Bool) :=
  match parsePattern q.toList with
  | none => .error ()
  | some ts => .ok (vals.map fun s => reSearch ts s.toList)

/-- Spec-side notion: `p` is literally a prefix of `s` (on characters). -/
def strPre : List Char → List Char → Bool
  | [], _ => true
  | _ :: _, [] => false
  | a :: as, b :: bs => a == b && strPre as bs

/-- Spec-side notion: `p` occurs literally as a contiguous substring of
the character list. -/
def subAt (p : List Char) : List Char → Bool
  | [] => strPre p []
  | c :: cs => strPre p (c :: cs) || subAt p cs

/-- Lower-case every character (ASCII case folding). -/
def lowerList (l : List Char) : List Char := l.map Char.toLower

/-- Spec-side matching relation: `q` is contained in `s` as a
case-insensitive literal substring. -/
def containsCI (q s : String) : Bool :=
  subAt (lowerList q.toList) (lowerList s.toList)

/-- A query none of whose characters has a regular-expression meaning;
for such queries `str.contains` degenerates to literal substring
search. -/
def isLiteralQuery (q : String) : Bool :=
  q.toList.all fun c => !isRegexMeta c && c != '.'

/-- In-memory table: ordered column names plus rows of cell values, each
row aligned positionally with the column list (a pandas DataFrame as
produced by `read_csv`). -/
structure DataFrame where
  cols : List String
  rows : List (List Value)
deriving DecidableEq, Repr

/-- Pandas `df.empty`: true when either axis has length zero. -/
def DataFrame.isEmpty (df : DataFrame) : Bool :=
  df.rows.isEmpty || df.cols.isEmpty

/-- Cell of a row at a named column (`df[col]` for one row); absent
columns and short rows read as a missing value. -/
def rowCell (cols : List String) (row : List Value) (c : String) : Value :=
  match cols.findIdx? fun c2 => c2 = c with
  | some i => row.getD i Value.na
  | none => Value.na

/-- Stringified column `df[col].astype(str)` as a list, one entry per
row. -/
def colValues (df : DataFrame) (c : String) : List String :=
  df.rows.map fun r => pythonStr (rowCell df.cols r c)

/-- One iteration of the mask loop of `search_dataframe`: for a scope
column present in the table, OR the column's contains-mask into the
accumulated boolean mask; columns absent from the table are skipped; an
invalid pattern propagates as an exception. -/
def maskStep (df : DataFrame) (q : String) (acc : Except Unit (List Bool)) (c : String) :
    Except Unit (List Bool) :=
  match acc with
  | .error e => .error e
  | .ok mask =>
    if df.cols.contains c then
      match seriesStrContains q (colValues df c) with
      | .error e => .error e
      | .ok colMask => .ok (List.zipWith (fun a b => a || b) mask colMask)
    else .ok mask

/-- Boolean-mask row selection `df[mask]`. -/
def selectRows (rows : List (List Value)) (mask : List Bool) : List (List Value) :=
  (List.zip rows mask).filterMap fun p => if p.2 then some p.1 else none

/-- Translation of `search_dataframe` (src/app.py lines 191-205): return
`df` unchanged when the table is empty or the query is empty; otherwise
build a row mask by OR-ing, over every scope column present in the
table, the case-insensitive `str.contains` mask of the stringified
column, and select the masked rows.  `.error` models the `re.error`
exception that `str.contains` raises on an invalid pattern.

The pandas index-alignment details are benign here: the initial
`pd.Series([False]*len(df))` has a fresh RangeIndex, logical OR aligns
indexes filling missing entries with False, and the final `df[mask]`
reindexes the mask onto `df.index`, whose labels are all present in the
mask; so the selected rows are exactly those whose own cells match, even
when `df` is itself a filter result with non-contiguous labels. -/
def search_dataframe (df : DataFrame) (q : String) (searchCols : Option (List String)) :
    Except Unit DataFrame :=
  if df.isEmpty ∨ q = "" then .ok df
  else
    let scope := searchCols.getD df.cols
    (scope.foldl (maskStep df q) (.ok (df.rows.map fun _ => false))).map
      fun mask => ⟨df.cols, selectRows df.rows mask⟩

/-- Code-side matching of one cell of a row against a compiled query. -/
def cellMatch (ts : List RegexTok) (cols : List String) (c : String) (row : List Value) : Bool :=
  reSearch ts (pythonStr (rowCell cols row c)).toList

/-- Code-side row predicate of `search_dataframe`: some scope column is
present in the table and its stringified cell matches the compiled
query. -/
def rowMatches (ts : List RegexTok) (cols scope : List String) (row : List Value) : Bool :=
  scope.any fun c => cols.contains c && cellMatch ts cols c row

/-! ### Helper lemmas about list combinators -/

theorem zipWith_map_r {α β γ δ : Type} (g : α → γ → δ) (f : β → γ)
    (l₁ : List α) (l₂ : List β) :
    List.zipWith g l₁ (l₂.map f) = List.zipWith (fun a b => g a (f b)) l₁ l₂ := by
  induction l₁ generalizing l₂ with
  | nil => simp
  | cons a as ih => cases l₂ <;> simp [ih]

theorem zipWith_zipWith_r {α β γ δ : Type} (g : γ → β → δ) (h : α → β → γ)
    (l₁ : List α) (l₂ : List β) :
    List.zipWith g (List.zipWith h l₁ l₂) l₂ = List.zipWith (fun a b => g (h a b) b) l₁ l₂ := by
  induction l₁ generalizing l₂ with
  | nil => simp
  | cons a as ih => cases l₂ <;> simp [ih]

theorem zipWith_left_of_length {α β : Type} (l₁ : List α) (l₂ : List β)
    (h : l₁.length = l₂.length) :
    List.zipWith (fun a _ => a) l₁ l₂ = l₁ := by
  induction l₁ generalizing l₂ with
  | nil => simp
  | cons a as ih =>
    cases l₂ with
    | nil => simp at h
    | cons b bs => simp at h; simp [ih bs h]

theorem zipWith_map_self_l {α γ δ : Type} (g : γ → α → δ) (f : α → γ) (l : List α) :
    List.zipWith g (l.map f) l = l.map fun a => g (f a) a := by
  induction l with
  | nil => simp
  | cons a as ih => simp [ih]

theorem selectRows_map_self (P : List Value → Bool) (rows : List (List Value)) :
    selectRows rows (rows.map P) = rows.filter P := by
  induction rows with
  | nil => simp [selectRows]
  | cons r rs ih =>
    by_cases h : P r <;> simp [selectRows, List.filter_cons, h] <;>
      simpa [selectRows] using ih

theorem selectRows_sublist (rows : List (List Value)) (mask : List Bool) :
    (selectRows rows mask).Sublist rows := by
  induction rows generalizing mask with
  | nil => simp [selectRows]
  | cons r rs ih =>
    cases mask with
    | nil => simp [selectRows]
    | cons b bs =>
      by_cases h : b
      · simpa [selectRows, h] using (ih bs).cons₂ r
      · simpa [selectRows, h] using (ih bs).cons r

/-! ### Bridges between the regex model and literal substring search -/

theorem matchHere_lit (p l : List Char) :
    matchHere (p.map RegexTok.lit) l = strPre (lowerList p) (lowerList l) := by
  induction p generalizing l with
  | nil => cases l <;> simp [matchHere, strPre, lowerList]
  | cons a as ih =>
    cases l with
    | nil => simp [matchHere, strPre, lowerList]
    | cons b bs => simp [matchHere, strPre, lowerList, matchTok, ih bs]

theorem reSearch_lit (p l : List Char) :
    reSearch (p.map RegexTok.lit) l = subAt (lowerList p) (lowerList l) := by
  induction l with
  | nil => simp [reSearch, subAt, matchHere_lit, lowerList]
  | cons c cs ih => simp [reSearch, subAt, matchHere_lit, lowerList, ih]

theorem parse_literal_chars (l : List Char)
    (h : (l.all fun c => !isRegexMeta c && c != '.') = true) :
    parsePattern l = some (l.map RegexTok.lit) := by
  induction l with
  | nil => simp [parsePattern]
  | cons c cs ih =>
    simp only [List.all_cons, Bool.and_eq_true, bne_iff_ne, ne_eq,
      Bool.not_eq_true'] at h
    obtain ⟨⟨h1, h2⟩, h3⟩ := h
    have hdot : (c == '.') = false := by simpa using h2
    simp [parsePattern, hdot, h1, ih h3]

theorem parse_literal (q : String) (h : isLiteralQuery q = true) :
    parsePattern q.toList = some (q.toList.map RegexTok.lit) :=
  parse_literal_chars q.toList h

/-! ### Characterization of the mask fold of search_dataframe -/

theorem foldl_maskStep_error (df : DataFrame) (q : String) (scope : List String) :
    scope.foldl (maskStep df q) (.error ()) = .error () := by
  induction scope with
  | nil => rfl
  | cons c cs ih => simpa [maskStep] using ih

theorem foldl_maskStep_ok (df : DataFrame) (q : String) (ts : List RegexTok)
    (hp : parsePattern q.toList = some ts) :
    ∀ (scope : List String) (mask : List Bool), mask.length = df.rows.length →
      scope.foldl (maskStep df q) (.ok mask)
        = .ok (List.zipWith (fun b r => b || rowMatches ts df.cols scope r) mask df.rows) := by
  intro scope
  induction scope with
  | nil =>
    intro mask h
    have he : (fun (b : Bool) (r : List Value) => b || rowMatches ts df.cols [] r)
        = fun (b : Bool) _ => b := by
      funext b r; simp [rowMatches]
    simp only [List.foldl_nil, he, zipWith_left_of_length mask df.rows h]
  | cons c cs ih =>
    intro mask h
    have hp2 : parsePattern q.data = some ts := hp
    by_cases hc : c ∈ df.cols
    · have hcb : df.cols.contains c = true := by simpa using hc
      have hstep : maskStep df q (.ok mask) c
          = .ok (List.zipWith (fun b r => b || cellMatch ts df.cols c r) mask df.rows) := by
        simp only [maskStep, hcb, if_true, seriesStrContains, hp, hp2, colValues,
          List.map_map]
        rw [zipWith_map_r]
        rfl
      have hlen : (List.zipWith (fun b r => b || cellMatch ts df.cols c r) mask df.rows).length
          = df.rows.length := by
        simp [List.length_zipWith, h]
      rw [List.foldl_cons, hstep, ih _ hlen, zipWith_zipWith_r]
      have he : (fun (b : Bool) (r : List Value) =>
            (b || cellMatch ts df.cols c r) || rowMatches ts df.cols cs r)
          = fun (b : Bool) (r : List Value) => b || rowMatches ts df.cols (c :: cs) r := by
        funext b r
        simp [rowMatches, hc, Bool.or_assoc]
      rw [he]
    · have hstep : maskStep df q (.ok mask) c = .ok mask := by
        simp [maskStep, hc]
      rw [List.foldl_cons, hstep, ih _ h]
      have he : (fun (b : Bool) (r : List Value) => b || rowMatches ts df.cols cs r)
          = fun (b : Bool) (r : List Value) => b || rowMatches ts df.cols (c :: cs) r := by
        funext b r
        simp [rowMatches, hc]
      rw [he]

theorem foldl_maskStep_parse_none (df : DataFrame) (q : String)
    (hp : parsePattern q.toList = none) :
    ∀ (scope : List String) (mask : List Bool),
      scope.foldl (maskStep df q) (.ok mask) = .ok mask ∨
      scope.foldl (maskStep df q) (.ok mask) = .error () := by
  intro scope
  induction scope with
  | nil => intro mask; left; rfl
  | cons c cs ih =>
    intro mask
    have hp2 : parsePattern q.data = none := hp
    by_cases hc : c ∈ df.cols
    · right
      have hstep : maskStep df q (.ok mask) c = .error () := by
        simp [maskStep, hc, seriesStrContains, hp, hp2]
      rw [List.foldl_cons, hstep, foldl_maskStep_error]
    · have hstep : maskStep df q (.ok mask) c = .ok mask := by
        simp [maskStep, hc]
      rw [List.foldl_cons, hstep]
      exact ih mask

/-- Main characterization: on a nonempty table with a nonempty query
whose pattern compiles, `search_dataframe` keeps exactly the rows whose
row predicate holds, in order. -/
theorem search_dataframe_ok_filter (df : DataFrame) (q : String)
    (sc : Option (List String)) (ts : List RegexTok)
    (hp : parsePattern q.toList = some ts) (he : df.isEmpty = false) (hq : q ≠ "") :
    search_dataframe df q sc
      = .ok ⟨df.cols, df.rows.filter (rowMatches ts df.cols (sc.getD df.cols))⟩ := by
  have hcond : ¬(df.isEmpty = true ∨ q = "") := by
    simp [he, hq]
  simp only [search_dataframe, hcond, if_false]
  rw [foldl_maskStep_ok df q ts hp _ (df.rows.map fun _ => false) (by simp)]
  rw [zipWith_map_self_l]
  have he2 : (fun r => (false || rowMatches ts df.cols (sc.getD df.cols) r))
      = rowMatches ts df.cols (sc.getD df.cols) := by
    funext r; simp
  rw [he2]
  simp [Except.map, selectRows_map_self]

/-! ### Claim C7 -/

/-- C7: for every table T and query q, if T is empty or q is the empty
string then `search_dataframe` returns T itself unchanged; being a pure
function of its arguments, it cannot mutate T. -/
theorem C7_filter_identity_on_empty (df : DataFrame) (q : String)
    (sc : Option (List String)) (h : df.isEmpty = true ∨ q = "") :
    search_dataframe df q sc = .ok df := by
  simp [search_dataframe, h]

theorem C7_filter_identity_on_empty_witness :
    ((⟨["A"], []⟩ : DataFrame).isEmpty = true ∨ "x" = "") ∧
      search_dataframe ⟨["A"], []⟩ "x" none = .ok ⟨["A"], []⟩ :=
  ⟨Or.inl rfl, C7_filter_identity_on_empty ⟨["A"], []⟩ "x" none (Or.inl rfl)⟩

/-! ### Claim C8 -/

/-- C8: whenever `search_dataframe` returns a table, its rows form a
sublist of the input rows — they appear in the same relative order and
no input row occurrence is duplicated — and the column schema is
unchanged. -/
theorem C8_filter_preserves_order (df : DataFrame) (q : String)
    (sc : Option (List String)) (d : DataFrame)
    (h : search_dataframe df q sc = .ok d) :
    d.rows.Sublist df.rows ∧ d.cols = df.cols := by
  unfold search_dataframe at h
  by_cases hc : (df.isEmpty = true ∨ q = "")
  · rw [if_pos hc] at h
    obtain rfl : df = d := by simpa using h
    exact ⟨List.Sublist.refl _, rfl⟩
  · rw [if_neg hc] at h
    cases hm : (sc.getD df.cols).foldl (maskStep df q) (.ok (df.rows.map fun _ => false)) with
    | error e =>
      simp only [hm, Except.map] at h
      exact Except.noConfusion h
    | ok mask =>
      simp only [hm, Except.map, Except.ok.injEq] at h
      subst h
      exact ⟨selectRows_sublist df.rows mask, rfl⟩

theorem C8_filter_preserves_order_witness :
    ((⟨["A"], [[Value.text "ax"], [Value.text "b"]]⟩ : DataFrame).rows.Sublist
        [[Value.text "ax"], [Value.text "b"]]) ∧
      (⟨["A"], [[Value.text "ax"]]⟩ : DataFrame).rows.Sublist
        [[Value.text "ax"], [Value.text "b"]] ∧
      (⟨["A"], [[Value.text "ax"]]⟩ : DataFrame).cols = ["A"] :=
  ⟨List.Sublist.refl _,
    C8_filter_preserves_order ⟨["A"], [[Value.text "ax"], [Value.text "b"]]⟩ "a" none
      ⟨["A"], [[Value.text "ax"]]⟩ rfl⟩

/-! ### Claim C1 -/

/-- Row predicate exactly as claim C1 words it: some scoped column
exists in the table and the row's value in it is present (not missing)
and contains the query as a case-insensitive substring. -/
def claimC1RowMatch (q : String) (cols scope : List String) (row : List Value) : Bool :=
  scope.any fun c =>
    cols.contains c && !(rowCell cols row c == Value.na)
      && containsCI q (pythonStr (rowCell cols row c))

/-- C1 counterexample: on the one-column table whose single row holds a
missing value, the query "nan" DOES select the row (astype(str) renders
NaN as the text "nan"), although the claim's own predicate — which says
missing values never count as a match — rejects it. -/
theorem C1_counterexample :
    search_dataframe ⟨["A"], [[Value.na]]⟩ "nan" none = .ok ⟨["A"], [[Value.na]]⟩ ∧
      claimC1RowMatch "nan" ["A"] ["A"] [Value.na] = false := by
  exact ⟨rfl, rfl⟩

/-- C1 (amended): for every table, scope, and nonempty query free of
regex metacharacters, a row is kept by `search_dataframe` iff at least
one scoped column exists in the table and the row's value in it,
converted to text — with a missing value rendered as the text "nan" —
contains the query as a case-insensitive substring; so missing values
DO match queries contained in "nan". -/
theorem C1_search_iff_ci_substring (df : DataFrame) (q : String)
    (sc : Option (List String)) (hl : isLiteralQuery q = true)
    (hq : q ≠ "") (he : df.isEmpty = false) :
    search_dataframe df q sc = .ok ⟨df.cols,
      df.rows.filter fun r => (sc.getD df.cols).any fun c =>
        df.cols.contains c && containsCI q (pythonStr (rowCell df.cols r c))⟩ := by
  rw [search_dataframe_ok_filter df q sc _ (parse_literal q hl) he hq]
  have hpred : rowMatches (q.toList.map RegexTok.lit) df.cols (sc.getD df.cols)
      = fun r => (sc.getD df.cols).any fun c =>
          df.cols.contains c && containsCI q (pythonStr (rowCell df.cols r c)) := by
    funext r
    simp [rowMatches, cellMatch, reSearch_lit, containsCI]
  rw [hpred]

theorem C1_search_iff_ci_substring_witness :
    isLiteralQuery "silk" = true ∧ "silk" ≠ "" ∧
      ((⟨["Name"], [[Value.text "Silk Charmeuse"], [Value.text "Cotton Twill"]]⟩ :
          DataFrame).isEmpty = false) ∧
      search_dataframe ⟨["Name"], [[Value.text "Silk Charmeuse"], [Value.text "Cotton Twill"]]⟩
          "silk" none
        = .ok ⟨["Name"],
            [[Value.text "Silk Charmeuse"], [Value.text "Cotton Twill"]].filter fun r =>
              ["Name"].any fun c =>
                ["Name"].contains c && containsCI "silk" (pythonStr (rowCell ["Name"] r c))⟩ :=
  ⟨rfl, by decide, rfl,
    C1_search_iff_ci_substring
      ⟨["Name"], [[Value.text "Silk Charmeuse"], [Value.text "Cotton Twill"]]⟩
      "silk" none rfl (by decide) rfl⟩

/-! ### Claim C2 -/

/-- C2 counterexample: the query "." — which contains no literal dot in
the cell text "xy" — still selects the row, because `str.contains`
interprets the query as a regular expression in which '.' matches any
character; substring containment of "." in "xy" is false. -/
theorem C2_counterexample :
    search_dataframe ⟨["A"], [[Value.text "xy"]]⟩ "." none
        = .ok ⟨["A"], [[Value.text "xy"]]⟩ ∧
      containsCI "." "xy" = false := by
  exact ⟨rfl, rfl⟩

/-- C2 (amended): matching interprets the query as a case-insensitive
regular expression, so metacharacters such as '.' are NOT matched as
literal text; only for queries free of regex metacharacters does the
per-cell match coincide with literal case-insensitive substring
containment, as proved here for the column operation modelling
`Series.str.contains`. -/
theorem C2_literal_query_is_substring (q : String) (vals : List String)
    (hl : isLiteralQuery q = true) :
    seriesStrContains q vals = .ok (vals.map fun s => containsCI q s) := by
  have hp2 : parsePattern q.data = some (q.data.map RegexTok.lit) := parse_literal q hl
  simp [seriesStrContains, hp2, reSearch_lit, containsCI]

theorem C2_literal_query_is_substring_witness :
    isLiteralQuery "ab" = true ∧
      seriesStrContains "ab" ["xAB", "c"] = .ok (["xAB", "c"].map fun s => containsCI "ab" s) :=
  ⟨rfl, C2_literal_query_is_substring "ab" ["xAB", "c"] rfl⟩

/-! ### Claim C4 -/

/-- C4 counterexample: the query "(", an invalid regular expression
(`re.error` — unterminated subpattern), makes `search_dataframe` raise
an exception on a nonempty table with a scoped column present, so the
claim that filtering never raises for every query string is false. -/
theorem C4_counterexample :
    search_dataframe ⟨["A"], [[Value.text "x"]]⟩ "(" none = .error () := rfl

/-- C4 (amended): for every table, scope, and query whose pattern
compiles as a regular expression, `search_dataframe` completes and
returns a table without raising; in particular rows with missing values
never cause an error — their cells are stringified to "nan" and matched
as text (`na=False` is moot after `astype(str)`). -/
theorem C4_valid_pattern_never_errors (df : DataFrame) (q : String)
    (sc : Option (List String)) (ts : List RegexTok)
    (hp : parsePattern q.toList = some ts) :
    ∃ d, search_dataframe df q sc = .ok d := by
  by_cases hc : (df.isEmpty = true ∨ q = "")
  · exact ⟨df, by simp [search_dataframe, hc]⟩
  · have he : df.isEmpty = false := by
      rcases not_or.mp hc with ⟨h1, _⟩
      simpa using h1
    have hq : q ≠ "" := (not_or.mp hc).2
    exact ⟨_, search_dataframe_ok_filter df q sc ts hp he hq⟩

theorem C4_valid_pattern_never_errors_witness :
    parsePattern "a".toList = some [RegexTok.lit 'a'] ∧
      ∃ d, search_dataframe ⟨["A"], [[Value.na]]⟩ "a" none = .ok d :=
  ⟨rfl, C4_valid_pattern_never_errors ⟨["A"], [[Value.na]]⟩ "a" none [RegexTok.lit 'a'] rfl⟩

/-! ### Claim C3 -/

/-- C3: filtering is idempotent — filtering a filter result again with
the same query returns it unchanged — and deterministic, the model
being a pure function re-run on the same arguments.  (In the pandas
code the inner result's row labels are a possibly non-contiguous subset
of the original RangeIndex; as noted at `search_dataframe`, index
alignment fills the fresh False mask and reindexes it onto those
labels, so the selected rows still depend only on each row's own
cells.) -/
theorem C3_filter_idempotent (df : DataFrame) (q : String) :
    (search_dataframe df q none).bind (fun d => search_dataframe d q none)
      = search_dataframe df q none := by
  by_cases hc : (df.isEmpty = true ∨ q = "")
  · have h1 : search_dataframe df q none = .ok df := by simp [search_dataframe, hc]
    simp [h1, Except.bind]
  · have he : df.isEmpty = false := by
      rcases not_or.mp hc with ⟨h1, _⟩
      simpa using h1
    have hq : q ≠ "" := (not_or.mp hc).2
    cases pp : parsePattern q.toList with
    | none =>
      rcases foldl_maskStep_parse_none df q pp df.cols (df.rows.map fun _ => false)
        with hf | hf
      · have hres : search_dataframe df q none = .ok ⟨df.cols, []⟩ := by
          simp only [search_dataframe, hc, if_false, Option.getD_none]
          rw [hf]
          simp only [Except.map]
          rw [selectRows_map_self]
          simp
        rw [hres]
        simp only [Except.bind]
        simp [search_dataframe, DataFrame.isEmpty]
      · have hres : search_dataframe df q none = .error () := by
          simp only [search_dataframe, hc, if_false, Option.getD_none]
          rw [hf]
          rfl
        rw [hres]
        rfl
    | some ts =>
      have h1 := search_dataframe_ok_filter df q none ts pp he hq
      simp only [Option.getD_none] at h1
      rw [h1]
      simp only [Except.bind]
      by_cases hde : ((⟨df.cols, df.rows.filter (rowMatches ts df.cols df.cols)⟩ :
          DataFrame).isEmpty = true)
      · simp [search_dataframe, hde]
      · have hde2 : (⟨df.cols, df.rows.filter (rowMatches ts df.cols df.cols)⟩ :
            DataFrame).isEmpty = false := by simpa using hde
        rw [search_dataframe_ok_filter _ q none ts pp hde2 hq]
        simp only [Option.getD_none]
        have hff : (df.rows.filter (rowMatches ts df.cols df.cols)).filter
              (rowMatches ts df.cols df.cols)
            = df.rows.filter (rowMatches ts df.cols df.cols) := by
          rw [List.filter_filter]
          have : (fun a => rowMatches ts df.cols df.cols a && rowMatches ts df.cols df.cols a)
              = rowMatches ts df.cols df.cols := by
            funext a; simp
          rw [this]
        rw [hff]

/-! ### Summary metrics -/

/-- Displayable metric value: a number (rendered with a dollar format)
or the "N/A" sentinel text. -/
inductive MetricVal where
  | num (q : ℚ)
  | na
deriving DecidableEq, Repr

/-- Numeric reading of a cell for the pandas column sum: numbers count
as themselves, booleans as 0/1, text and missing values are skipped
(skipna). -/
def toNum : Value → Option ℚ
  | .num q => some q
  | .boolean b => some (if b then 1 else 0)
  | _ => none

/-- Pandas `df[col].sum()` over a named column. -/
def colSum (df : DataFrame) (c : String) : ℚ :=
  ((df.rows.map fun r => rowCell df.cols r c).filterMap toNum).sum

/-- Accounts page total-balance metric (src/app.py line 341): the sum
of `current_balance` when that column is present, else the NUMBER 0
(displayed "$0.00"), not an N/A sentinel. -/
def accounts_total_balance (df : DataFrame) : MetricVal :=
  if df.cols.contains "current_balance" then .num (colSum df "current_balance")
  else .num 0

/-- Accounts page active-accounts metric (line 338): count of rows
whose `Active` cell equals boolean true, 0 when the column is absent. -/
def active_count (df : DataFrame) : ℕ :=
  if df.cols.contains "Active" then
    (df.rows.filter fun r => rowCell df.cols r "Active" == Value.boolean true).length
  else 0

/-- Invoices page total-amount metric (lines 448-453): the sum of
`TotalAmt` when present, else the "N/A" sentinel. -/
def invoices_total_amount (df : DataFrame) : MetricVal :=
  if df.cols.contains "TotalAmt" then .num (colSum df "TotalAmt") else .na

/-- Invoices page outstanding-balance metric (lines 454-459). -/
def invoices_outstanding_balance (df : DataFrame) : MetricVal :=
  if df.cols.contains "Balance" then .num (colSum df "Balance") else .na

/-! ### Claim C5 -/

/-- C5 counterexample: on a table whose schema lacks
`current_balance`, the Accounts page total-balance metric yields the
number 0, not the "N/A" sentinel — so the sentinel is not used
uniformly on every page as the claim states. -/
theorem C5_counterexample :
    accounts_total_balance ⟨["Name"], [[Value.text "x"]]⟩ = MetricVal.num 0 ∧
      MetricVal.num 0 ≠ MetricVal.na := by
  exact ⟨rfl, by decide⟩

/-- C5 (amended): the absent-column sentinel is not uniform across
pages: the Invoices page sum metric (like Bills and Expenses) yields
"N/A" when its target column is absent, while the Accounts page
total-balance metric (like the Services and Customers analogues)
yields the number 0 instead. -/
theorem C5_absent_column_sentinel (df : DataFrame)
    (h1 : df.cols.contains "TotalAmt" = false)
    (h2 : df.cols.contains "current_balance" = false) :
    invoices_total_amount df = MetricVal.na ∧
      accounts_total_balance df = MetricVal.num 0 := by
  have h1m : "TotalAmt" ∉ df.cols := by simpa using h1
  have h2m : "current_balance" ∉ df.cols := by simpa using h2
  constructor
  · simp [invoices_total_amount, h1m]
  · simp [accounts_total_balance, h2m]

theorem C5_absent_column_sentinel_witness :
    ((⟨["Name"], []⟩ : DataFrame).cols.contains "TotalAmt" = false) ∧
      ((⟨["Name"], []⟩ : DataFrame).cols.contains "current_balance" = false) ∧
      invoices_total_amount ⟨["Name"], []⟩ = MetricVal.na ∧
      accounts_total_balance ⟨["Name"], []⟩ = MetricVal.num 0 :=
  ⟨rfl, rfl, C5_absent_column_sentinel ⟨["Name"], []⟩ rfl rfl⟩

/-! ### Session state (claim C6) -/

/-- The per-user session fields of `st.session_state` touched by
`start_session`: the active flag, the created assistant id, and the
uploaded file ids. -/
structure SessionState where
  session_active : Bool
  openai_assistant_id : Option String
  openai_file_ids : List String
deriving DecidableEq, Repr

/-- Outcome of the remote upload-and-create-assistant exchange inside
`upload_files_to_openai`, abstracted: either the assistant id and file
ids, or any exception caught by its handler. -/
inductive UploadOutcome where
  | success (assistantId : String) (fileIds : List String)
  | failure
deriving DecidableEq, Repr

/-- Translation of `upload_files_to_openai` (src/app.py lines 11-68):
with no API key it reports an error and returns `(None, [])`; with a
key it returns the remote outcome, any exception again yielding
`(None, [])`. -/
def upload_files_to_openai (apiKey : Option String) (remote : UploadOutcome) :
    Option String × List String :=
  match apiKey with
  | none => (none, [])
  | some _ =>
    match remote with
    | .success a fs => (some a, fs)
    | .failure => (none, [])

/-- Translation of `start_session` (lines 162-179): it sets
`session_active := True` FIRST, then uploads; the assistant and file
ids are stored only when both are truthy, but the active flag is never
rolled back on failure. -/
def start_session (st : SessionState) (apiKey : Option String) (remote : UploadOutcome) :
    SessionState × String :=
  let st1 := { st with session_active := true }
  let res := upload_files_to_openai apiKey remote
  if res.1.isSome ∧ ¬res.2.isEmpty then
    ({ st1 with openai_assistant_id := res.1, openai_file_ids := res.2 },
      "Session started successfully! Created AI assistant with "
        ++ toString res.2.length ++ " files for code interpreter analysis.")
  else
    (st1, "Session started but failed to create assistant or upload files.")

/-- C6 (code bug): starting from no session with the API credential
missing, `start_session` reports the failure message yet leaves
`session_active = true` with no assistant id — an active session exists
after the failed `start_session`, contradicting the claimed invariant
(the Home page then shows the session as active while `analysis_stream`
refuses to run for lack of an assistant). -/
theorem C6_failed_start_leaves_session_active :
    start_session ⟨false, none, []⟩ none UploadOutcome.failure
      = (⟨true, none, []⟩,
          "Session started but failed to create assistant or upload files.") := rfl

/-! ### Claim C9 -/

/-- Translation of `load_csv_data` (src/app.py lines 181-189) over an
abstract read-only file system mapping paths to loaded tables: a
present file loads its table with no warning; an absent file yields the
empty table together with the user-visible `st.error` warning text (the
NotFound signal) — no exception escapes.  The `@st.cache_data`
memoization only caches results by argument and does not change the
value computed here. -/
def load_csv_data (fs : String → Option DataFrame) (filename : String) :
    DataFrame × Option String :=
  match fs ("anonymized_data/" ++ filename) with
  | some df => (df, none)
  | none => (⟨[], []⟩, some ("File " ++ filename ++ " not found in anonymized_data folder"))

/-- C9: for every dataset name whose backing file is absent,
`load_csv_data` returns the empty table plus the user-visible NotFound
warning, rather than failing. -/
theorem C9_missing_file_empty_table (fs : String → Option DataFrame) (filename : String)
    (h : fs ("anonymized_data/" ++ filename) = none) :
    load_csv_data fs filename
      = (⟨[], []⟩, some ("File " ++ filename ++ " not found in anonymized_data folder")) := by
  simp [load_csv_data, h]

theorem C9_missing_file_empty_table_witness :
    ((fun _ => none : String → Option DataFrame) ("anonymized_data/" ++ "nonexistent.csv")
        = none) ∧
      load_csv_data (fun _ => none) "nonexistent.csv"
        = (⟨[], []⟩, some ("File " ++ "nonexistent.csv"
            ++ " not found in anonymized_data folder")) :=
  ⟨rfl, C9_missing_file_empty_table (fun _ => none) "nonexistent.csv" rfl⟩

/-! ### Page renders (claim C10) -/

/-- The three summary figures of the Accounts page (lines 334-342). -/
structure AccountsSummary where
  total_accounts : ℕ
  active_accounts : ℕ
  total_balance : MetricVal
deriving DecidableEq, Repr

/-- Accounts page summary block, computed from the table it is given. -/
def accounts_summary (df : DataFrame) : AccountsSummary :=
  ⟨df.rows.length, active_count df, accounts_total_balance df⟩

/-- Rendered Accounts page: either the no-data error view, or the data
view with the optional "Found k matching accounts" line, the listed
table, and the summary metrics. -/
inductive AccountsRender where
  | noData
  | page (found : Option ℕ) (shown : DataFrame) (summary : AccountsSummary)
deriving DecidableEq, Repr

/-- Translation of the Accounts page (src/app.py lines 309-344): when
the loaded table is nonempty, an entered query filters the row listing
via `search_dataframe`, and the summary metrics are computed from the
FULL loaded table afterwards; an invalid-regex query aborts the render
with the exception raised by `search_dataframe`, before the metrics are
displayed. -/
def accounts_page (df : DataFrame) (q : String) : Except Unit AccountsRender :=
  if df.isEmpty then .ok .noData
  else if q = "" then .ok (.page none df (accounts_summary df))
  else (search_dataframe df q none).map fun fd =>
    .page (some fd.rows.length) fd (accounts_summary df)

/-- The summary metrics actually shown by a render attempt: none when
the page shows no data or the render died on an exception. -/
def accountsSummaryShown : Except Unit AccountsRender → Option AccountsSummary
  | .ok (.page _ _ s) => some s
  | _ => none

/-- The three summary figures of the Invoices page (lines 444-459). -/
structure InvoicesSummary where
  total_invoices : ℕ
  total_amount : MetricVal
  outstanding_balance : MetricVal
deriving DecidableEq, Repr

/-- Invoices page summary block, computed from the table it is given. -/
def invoices_summary (df : DataFrame) : InvoicesSummary :=
  ⟨df.rows.length, invoices_total_amount df, invoices_outstanding_balance df⟩

/-- Rendered Invoices page, mirroring `AccountsRender`. -/
inductive InvoicesRender where
  | noData
  | page (found : Option ℕ) (shown : DataFrame) (summary : InvoicesSummary)
deriving DecidableEq, Repr

/-- Translation of the Invoices page (src/app.py lines 420-461),
structured exactly like `accounts_page`. -/
def invoices_page (df : DataFrame) (q : String) : Except Unit InvoicesRender :=
  if df.isEmpty then .ok .noData
  else if q = "" then .ok (.page none df (invoices_summary df))
  else (search_dataframe df q none).map fun fd =>
    .page (some fd.rows.length) fd (invoices_summary df)

/-- The summary metrics actually shown by an Invoices render attempt. -/
def invoicesSummaryShown : Except Unit InvoicesRender → Option InvoicesSummary
  | .ok (.page _ _ s) => some s
  | _ => none

theorem accounts_page_summary_shape (df : DataFrame) (q : String) (r : AccountsRender)
    (h : accounts_page df q = .ok r) :
    accountsSummaryShown (.ok r)
      = if df.isEmpty then none else some (accounts_summary df) := by
  unfold accounts_page at h
  by_cases hde : df.isEmpty = true
  · rw [if_pos hde] at h
    obtain rfl : AccountsRender.noData = r := by simpa using h
    simp [accountsSummaryShown, hde]
  · rw [if_neg hde] at h
    by_cases hq : q = ""
    · rw [if_pos hq] at h
      obtain rfl : AccountsRender.page none df (accounts_summary df) = r := by simpa using h
      simp [accountsSummaryShown, hde]
    · rw [if_neg hq] at h
      cases hs : search_dataframe df q none with
      | error e =>
        simp only [hs, Except.map] at h
        exact Except.noConfusion h
      | ok fd =>
        simp only [hs, Except.map, Except.ok.injEq] at h
        subst h
        simp [accountsSummaryShown, hde]

theorem invoices_page_summary_shape (df : DataFrame) (q : String) (r : InvoicesRender)
    (h : invoices_page df q = .ok r) :
    invoicesSummaryShown (.ok r)
      = if df.isEmpty then none else some (invoices_summary df) := by
  unfold invoices_page at h
  by_cases hde : df.isEmpty = true
  · rw [if_pos hde] at h
    obtain rfl : InvoicesRender.noData = r := by simpa using h
    simp [invoicesSummaryShown, hde]
  · rw [if_neg hde] at h
    by_cases hq : q = ""
    · rw [if_pos hq] at h
      obtain rfl : InvoicesRender.page none df (invoices_summary df) = r := by simpa using h
      simp [invoicesSummaryShown, hde]
    · rw [if_neg hq] at h
      cases hs : search_dataframe df q none with
      | error e =>
        simp only [hs, Except.map] at h
        exact Except.noConfusion h
      | ok fd =>
        simp only [hs, Except.map, Except.ok.injEq] at h
        subst h
        simp [invoicesSummaryShown, hde]

/-! ### Claim C10 -/

/-- C10 counterexample: against the same loaded table, the query "x"
completes the Accounts render and shows the summary metrics, while the
query "(" raises inside `search_dataframe` and aborts the render before
the metrics are displayed — so the metric values shown are not
identical for every pair of queries. -/
theorem C10_counterexample :
    accountsSummaryShown (accounts_page ⟨["Name"], [[Value.text "x"]]⟩ "x")
      ≠ accountsSummaryShown (accounts_page ⟨["Name"], [[Value.text "x"]]⟩ "(") := by
  decide

/-- C10 (amended): whenever two renders of the same loaded table both
complete (their queries raise no exception), the summary metrics shown
are identical — on both the Accounts and the Invoices page the metrics
are computed from the full loaded table, and the query influences only
the row listing; a query that is an invalid regular expression instead
aborts the render before any metric is shown. -/
theorem C10_metrics_independent_of_query (df : DataFrame) (q1 q2 : String)
    (r1 r2 : AccountsRender) (s1 s2 : InvoicesRender)
    (ha1 : accounts_page df q1 = .ok r1) (ha2 : accounts_page df q2 = .ok r2)
    (hi1 : invoices_page df q1 = .ok s1) (hi2 : invoices_page df q2 = .ok s2) :
    accountsSummaryShown (.ok r1) = accountsSummaryShown (.ok r2) ∧
      invoicesSummaryShown (.ok s1) = invoicesSummaryShown (.ok s2) := by
  constructor
  · rw [accounts_page_summary_shape df q1 r1 ha1, accounts_page_summary_shape df q2 r2 ha2]
  · rw [invoices_page_summary_shape df q1 s1 hi1, invoices_page_summary_shape df q2 s2 hi2]

theorem C10_metrics_independent_of_query_witness :
    (accounts_page ⟨["Name"], [[Value.text "x"]]⟩ "x"
        = .ok (.page (some 1) ⟨["Name"], [[Value.text "x"]]⟩ ⟨1, 0, MetricVal.num 0⟩)) ∧
      (accounts_page ⟨["Name"], [[Value.text "x"]]⟩ "y"
        = .ok (.page (some 0) ⟨["Name"], []⟩ ⟨1, 0, MetricVal.num 0⟩)) ∧
      (invoices_page ⟨["Name"], [[Value.text "x"]]⟩ "x"
        = .ok (.page (some 1) ⟨["Name"], [[Value.text "x"]]⟩ ⟨1, MetricVal.na, MetricVal.na⟩)) ∧
      (invoices_page ⟨["Name"], [[Value.text "x"]]⟩ "y"
        = .ok (.page (some 0) ⟨["Name"], []⟩ ⟨1, MetricVal.na, MetricVal.na⟩)) ∧
      accountsSummaryShown
          (.ok (.page (some 1) ⟨["Name"], [[Value.text "x"]]⟩ ⟨1, 0, MetricVal.num 0⟩))
        = accountsSummaryShown
          (.ok (.page (some 0) ⟨["Name"], []⟩ ⟨1, 0, MetricVal.num 0⟩)) ∧
      invoicesSummaryShown
          (.ok (.page (some 1) ⟨["Name"], [[Value.text "x"]]⟩ ⟨1, MetricVal.na, MetricVal.na⟩))
        = invoicesSummaryShown
          (.ok (.page (some 0) ⟨["Name"], []⟩ ⟨1, MetricVal.na, MetricVal.na⟩)) :=
  ⟨rfl, rfl, rfl, rfl,
    C10_metrics_independent_of_query ⟨["Name"], [[Value.text "x"]]⟩ "x" "y"
      (.page (some 1) ⟨["Name"], [[Value.text "x"]]⟩ ⟨1, 0, MetricVal.num 0⟩)
      (.page (some 0) ⟨["Name"], []⟩ ⟨1, 0, MetricVal.num 0⟩)
      (.page (some 1) ⟨["Name"], [[Value.text "x"]]⟩ ⟨1, MetricVal.na, MetricVal.na⟩)
      (.page (some 0) ⟨["Name"], []⟩ ⟨1, MetricVal.na, MetricVal.na⟩)
      rfl rfl rfl rfl⟩
